import Mathlib

/-
Verification of the Eluna Lua engine core (LuaEngine.cpp / LuaEngine.h) via a
shallow embedding.  Lua stacks are lists with the head as the top of the
stack, C doubles are modelled as an inductive with IEEE comparison semantics
(NaN, infinities, finite rationals), and the registry / binding containers
are association lists.  External collaborators (the Lua VM itself, the host
ObjectMgr, BindingMap.h, ElunaTemplate.h, Hooks.h) are modelled where noted.
-/

/-! ## Host object model (Object.h is host code, outside this repository).
The type-tag switch in Eluna::Push only distinguishes TYPEID_UNIT,
TYPEID_PLAYER, TYPEID_GAMEOBJECT, TYPEID_CORPSE and a default branch, so the
tag is modelled with those four constructors plus an opaque remainder. -/

inductive TypeTag
  | typeidUnit
  | typeidPlayer
  | typeidGameobject
  | typeidCorpse
  | typeidOther (n : Nat)
deriving DecidableEq, Repr

/-- Modelled from the spec: a host entity reference (Object and subclasses live
in the host, not under src/).  Only the type tag is observable to the code
under verification. -/
structure HostObject where
  tag : TypeTag
deriving DecidableEq, Repr

/-- A full-userdata wrapper produced by ElunaTemplate::Push: the wrapper type
name (what GetTypeName returns, LuaEngine.cpp:631) and the wrapped host
reference. -/
structure ElunaObj where
  typeName : String
  host : Option HostObject
deriving DecidableEq, Repr

/-! ## Lua values.  A C `double` crossing the boundary is modelled with
explicit non-finite values so that the comparison operators used by
CheckIntegerRange / CheckUnsignedRange keep IEEE semantics (every comparison
against NaN is false). -/

inductive LuaNumber
  | nan
  | posInf
  | negInf
  | finite (q : ℚ)
deriving DecidableEq, Repr

/-- IEEE `value > b` for a finite integer bound `b` (LuaEngine.cpp:483,505). -/
def LuaNumber.gtInt : LuaNumber → Int → Bool
  | .nan, _ => false
  | .posInf, _ => true
  | .negInf, _ => false
  | .finite q, b => decide ((b : ℚ) < q)

/-- IEEE `value < b` for a finite integer bound `b` (LuaEngine.cpp:489,502). -/
def LuaNumber.ltInt : LuaNumber → Int → Bool
  | .nan, _ => false
  | .posInf, _ => false
  | .negInf, _ => true
  | .finite q, b => decide (q < (b : ℚ))

/-- Result of a C++ `static_cast` from double to an integer type
(LuaEngine.cpp:495,512): truncation toward zero for finite values; for a
non-finite value the cast is undefined behavior, recorded as `undef`. -/
inductive CastResult
  | val (z : Int)
  | undef
deriving DecidableEq, Repr

/-- Truncation toward zero, the C++ double→integer conversion for values
representable in the target type. -/
def ratTrunc (q : ℚ) : Int :=
  if 0 ≤ q then ⌊q⌋ else ⌈q⌉

def LuaNumber.truncToInt : LuaNumber → CastResult
  | .nan => .undef
  | .posInf => .undef
  | .negInf => .undef
  | .finite q => .val (ratTrunc q)

inductive LuaVal
  | nil
  | boolean (b : Bool)
  | num (n : LuaNumber)
  | str (s : String)
  | table (id : Nat)
  | func (id : Nat)
  | userdata (o : ElunaObj)
  | lightuserdata (p : Nat)
deriving DecidableEq, Repr

def LuaVal.isFunction : LuaVal → Bool
  | .func _ => true
  | _ => false

/-- The name `luaL_typename` yields for a value (used in the CHECKTYPE error
message, LuaEngine.cpp:636).  Light and full userdata both name "userdata". -/
def luaTypename : LuaVal → String
  | .nil => "nil"
  | .boolean _ => "boolean"
  | .num _ => "number"
  | .str _ => "string"
  | .table _ => "table"
  | .func _ => "function"
  | .userdata _ => "userdata"
  | .lightuserdata _ => "userdata"

/-! ## Integer argument checks (LuaEngine.cpp:478-550).
Errors raised through luaL_argerror / luaL_error are modelled with `Except`:
a lua error unwinds to the enclosing protected call, so the checked
computation either produces a value or an error message.  Only the
caller-supplied message text is modelled (luaL_argerror prefixes argument
position information on its own). -/

/-- The `luaL_checknumber` read: the argument must be a number (string→number
coercion of the Lua runtime is outside this repository and not exercised by
the claims). -/
def checknumber : LuaVal → Except String LuaNumber
  | .num n => .ok n
  | v => .error ("number expected, got " ++ luaTypename v)

/-- CheckIntegerRange (LuaEngine.cpp:478-496): compares the double against the
max bound, then the min bound, then performs the narrowing cast. -/
def CheckIntegerRange (v : LuaVal) (lo hi : Int) : Except String CastResult := do
  let value ← checknumber v
  if value.gtInt hi then
    .error ("value must be less than or equal to " ++ toString hi)
  else if value.ltInt lo then
    .error ("value must be greater than or equal to " ++ toString lo)
  else
    .ok value.truncToInt

/-- CheckUnsignedRange (LuaEngine.cpp:498-513): compares against 0 first, then
the max bound, then performs the narrowing cast. -/
def CheckUnsignedRange (v : LuaVal) (hi : Int) : Except String CastResult := do
  let value ← checknumber v
  if value.ltInt 0 then
    .error "value must be greater than or equal to 0"
  else if value.gtInt hi then
    .error ("value must be less than or equal to " ++ toString hi)
  else
    .ok value.truncToInt

/-- CHECKVAL for signed char (LuaEngine.cpp:527-530). -/
def CHECKVAL_int8 (v : LuaVal) : Except String CastResult :=
  CheckIntegerRange v (-128) 127

/-- CHECKVAL for unsigned char (LuaEngine.cpp:531-534). -/
def CHECKVAL_uint8 (v : LuaVal) : Except String CastResult :=
  CheckUnsignedRange v 255

/-- CHECKVAL for short (LuaEngine.cpp:535-538). -/
def CHECKVAL_int16 (v : LuaVal) : Except String CastResult :=
  CheckIntegerRange v (-32768) 32767

/-- CHECKVAL for unsigned short (LuaEngine.cpp:539-542). -/
def CHECKVAL_uint16 (v : LuaVal) : Except String CastResult :=
  CheckUnsignedRange v 65535

/-- CHECKVAL for int (LuaEngine.cpp:543-546). -/
def CHECKVAL_int32 (v : LuaVal) : Except String CastResult :=
  CheckIntegerRange v (-2147483648) 2147483647

/-- CHECKVAL for unsigned int (LuaEngine.cpp:547-550). -/
def CHECKVAL_uint32 (v : LuaVal) : Except String CastResult :=
  CheckUnsignedRange v 4294967295

/-- The two-argument CHECKVAL overload (LuaEngine.h:331-334):
`lua_isnoneornil(L, narg) ? def : CHECKVAL<T>(narg)`.  An absent stack slot is
`none`, a present value is `some v`; the single-argument validating check is
passed in as `check1`. -/
def CHECKVAL_withDefault {α : Type} (check1 : LuaVal → Except String α)
    (arg : Option LuaVal) (defVal : α) : Except String α :=
  match arg with
  | none => .ok defVal
  | some .nil => .ok defVal
  | some v => check1 v

/-! ## Engine state and the protected-call boundary (LuaEngine.cpp:288-343,
885-899).  The Lua stack is a list with the head as the top.  The outcome of
`lua_pcall` itself is the script's own code (the Lua VM is outside this
repository) and is supplied as an oracle; `pcallLevels` is a ghost history
recording the nesting level at which each protected call executed. -/

structure EState where
  stack : List LuaVal
  event_level : Nat
  callstackid : Nat
  errorLog : List String
  pcallLevels : List Nat
  gcRuns : Nat
deriving DecidableEq, Repr

/-- Outcome of the protected call: the callee either returns (with the result
list lua_pcall leaves, already counted from the bottom of the result frame) or
raises an error whose message reaches the message handler. -/
inductive PCallOutcome
  | ok (results : List LuaVal)
  | err (msg : String)
deriving DecidableEq, Repr

/-- Result adjustment performed by lua_pcall when called with a fixed result
count `res`: extra results (at the top, the head of the list) are discarded,
missing ones are filled with nil.  The adjusted frame has length `res`. -/
def adjustResults (res : Nat) (rs : List LuaVal) : List LuaVal :=
  if res ≤ rs.length then rs.drop (rs.length - res)
  else List.replicate (res - rs.length) LuaVal.nil ++ rs

theorem adjustResults_length (res : Nat) (rs : List LuaVal) :
    (adjustResults res rs).length = res := by
  unfold adjustResults
  split
  · simp; omega
  · simp; omega

/-- Eluna::InvalidateObjects (LuaEngine.cpp:243-249): advances the epoch
counter that stamps cross-boundary object handles.  The uint64 counter cannot
realistically overflow (the source ASSERTs against wraparound); it is a Nat
here. -/
def InvalidateObjects (s : EState) : EState :=
  { s with callstackid := s.callstackid + 1 }

/-- Eluna::ExecuteCall (LuaEngine.cpp:288-343).
Expected stack: function at `base = top - params`, `params` arguments above
it.  Returns `none` exactly where the source hits its ASSERTs (base not
positive, or the value at base not a function); otherwise returns the success
flag and the state after the call.

Step by step against the source:
- when CONFIG_ELUNA_TRACEBACK is set, a StackTrace handler is inserted at
  `base` (stack: traceback, function, arguments) and passed to lua_pcall as
  message handler; it maps the error message through debug.traceback.
  Modelled from the spec: the Lua debug library is outside this repository,
  so the traceback transformation is an abstract `trace` function.
- event_level is incremented around the pcall, so the call body runs at
  `event_level + 1`, recorded in the ghost `pcallLevels`.
- after the pcall the handler (if any) is removed, so both branches below
  already exclude it.
- on error: Report logs the message at the top and pops it, a full garbage
  collection is forced, and `res` nils are pushed in place of the results;
  the function returns false.  No lua error escapes: lua_pcall has trapped
  it, and ExecuteCall returns normally.
- on success: the `res` adjusted results sit above the untouched remainder
  of the stack; the function returns true. -/
def ExecuteCall (usetrace : Bool) (trace : String → String) (outcome : PCallOutcome)
    (params res : Nat) (s : EState) : Option (Bool × EState) :=
  if params + 1 ≤ s.stack.length then
    let fval := s.stack.getD params LuaVal.nil
    let rest := s.stack.drop (params + 1)
    if fval.isFunction then
      let level := s.event_level + 1
      match outcome with
      | .ok results =>
          some (true,
            { s with stack := adjustResults res results ++ rest,
                     pcallLevels := level :: s.pcallLevels })
      | .err msg =>
          let logged := if usetrace then trace msg else msg
          some (false,
            { s with stack := List.replicate res LuaVal.nil ++ rest,
                     errorLog := logged :: s.errorLog,
                     gcRuns := s.gcRuns + 1,
                     pcallLevels := level :: s.pcallLevels })
    else none
  else none

/-- Eluna::CleanUpStack (LuaEngine.cpp:888-899): pops the arguments plus the
event id, then, exactly when no nested dispatch is active (event_level == 0),
calls InvalidateObjects. -/
def CleanUpStack (number_of_arguments : Nat) (s : EState) : EState :=
  let s1 := { s with stack := s.stack.drop (number_of_arguments + 1) }
  if s1.event_level = 0 then InvalidateObjects s1 else s1

/-! ## Object argument checks (LuaEngine.cpp:585-642). -/

/-- Eluna::CHECKTYPE (LuaEngine.cpp:620-642).  Light userdata is rejected
outright; otherwise the userdata block is read as an ElunaObject and, when a
type name is supplied, compared against it.  With `error = true` a failed
check raises an argument error naming the expected and the actual type; with
`error = false` it returns null (`none`). -/
def CHECKTYPE (v : LuaVal) (tname : Option String) (error : Bool) :
    Except String (Option ElunaObj) :=
  match v with
  | .lightuserdata _ =>
      if error then .error "bad argument : userdata expected, got lightuserdata"
      else .ok none
  | .userdata o =>
      match tname with
      | some t =>
          if o.typeName = t then .ok (some o)
          else if error then
            .error ("bad argument : " ++ t ++ " expected, got " ++ o.typeName)
          else .ok none
      | none => .ok (some o)
  | _ =>
      if error then
        .error ("bad argument : " ++ tname.getD "ElunaObject" ++
          " expected, got " ++ luaTypename v)
      else .ok none

/-- Modelled from the spec: ElunaTemplate<T>::Check lives in ElunaTemplate.h,
which is not under src/.  Per spec section 4.3 an object check validates the
argument as a T wrapper; this is exactly what the in-repository CHECKTYPE does
when given the type name of T (compare LuaEngine.cpp:615-618, where the
ElunaObject instance is checked through CHECKTYPE).  Handle-liveness
validation that ElunaTemplate::Check performs additionally is orthogonal to
the chain dispatch the claims are about and is not modelled. -/
def templateCheck (tname : String) (v : LuaVal) (error : Bool) :
    Except String (Option ElunaObj) :=
  CHECKTYPE v (some tname) error

/-- Chains one non-erroring wrapper probe before a fallback
(`Unit* obj = CHECKOBJ<Player>(narg, false); if (!obj) obj = ...`). -/
def orElseCheck (first : Except String (Option ElunaObj))
    (next : Except String (Option ElunaObj)) : Except String (Option ElunaObj) :=
  match first with
  | .ok (some o) => .ok (some o)
  | _ => next

/-- CHECKOBJ<Unit> (LuaEngine.cpp:605-613): Player, then Creature, then the
generic Unit wrapper (the last probe carries the caller's error flag). -/
def CHECKOBJ_Unit (v : LuaVal) (error : Bool) : Except String (Option ElunaObj) :=
  orElseCheck (templateCheck "Player" v false)
    (orElseCheck (templateCheck "Creature" v false)
      (templateCheck "Unit" v error))

/-- CHECKOBJ<WorldObject> (LuaEngine.cpp:594-604): Unit (itself a chain), then
GameObject, then Corpse, then the generic WorldObject wrapper. -/
def CHECKOBJ_WorldObject (v : LuaVal) (error : Bool) :
    Except String (Option ElunaObj) :=
  orElseCheck (CHECKOBJ_Unit v false)
    (orElseCheck (templateCheck "GameObject" v false)
      (orElseCheck (templateCheck "Corpse" v false)
        (templateCheck "WorldObject" v error)))

/-- CHECKOBJ<Object> (LuaEngine.cpp:585-593): WorldObject (itself a chain),
then Item, then the generic Object wrapper. -/
def CHECKOBJ_Object (v : LuaVal) (error : Bool) : Except String (Option ElunaObj) :=
  orElseCheck (CHECKOBJ_WorldObject v false)
    (orElseCheck (templateCheck "Item" v false)
      (templateCheck "Object" v error))

/-! ## Pushing host object references (LuaEngine.cpp:345-471). -/

/-- Modelled from the spec: ElunaTemplate<T>::Push is in ElunaTemplate.h, not
under src/.  Per spec section 4.3 it wraps the host reference in a
script-visible userdata handle carrying the wrapper type name; an absent/null
reference pushes the script "nothing" value (nil), matching the explicit null
checks in the Push overloads of LuaEngine.cpp. -/
def templatePush (tname : String) : Option HostObject → LuaVal
  | none => .nil
  | some o => .userdata ⟨tname, some o⟩

/-- Eluna::Push(Creature*): the generic template push with the Creature
wrapper (LuaEngine.h:291-295). -/
def Push_Creature (p : Option HostObject) : LuaVal :=
  templatePush "Creature" p

/-- Eluna::Push(Player*): the generic template push with the Player wrapper. -/
def Push_Player (p : Option HostObject) : LuaVal :=
  templatePush "Player" p

/-- Eluna::Push(GameObject*). -/
def Push_GameObject (p : Option HostObject) : LuaVal :=
  templatePush "GameObject" p

/-- Eluna::Push(Corpse*). -/
def Push_Corpse (p : Option HostObject) : LuaVal :=
  templatePush "Corpse" p

/-- Eluna::Push(Pet const*) (LuaEngine.cpp:395-398): always Push<Creature>. -/
def Push_Pet (p : Option HostObject) : LuaVal :=
  Push_Creature p

/-- Eluna::Push(TempSummon const*) (LuaEngine.cpp:399-402): always
Push<Creature>. -/
def Push_TempSummon (p : Option HostObject) : LuaVal :=
  Push_Creature p

/-- Eluna::Push(Unit const*) (LuaEngine.cpp:403-421): nil for null, then a
switch on GetTypeId with Creature and Player cases and the generic Unit
wrapper as default. -/
def Push_Unit : Option HostObject → LuaVal
  | none => .nil
  | some u =>
      match u.tag with
      | .typeidUnit => Push_Creature (some u)
      | .typeidPlayer => Push_Player (some u)
      | _ => templatePush "Unit" (some u)

/-- Eluna::Push(WorldObject const*) (LuaEngine.cpp:422-446): nil for null,
then a switch with Creature, Player, GameObject, Corpse cases and the generic
WorldObject wrapper as default. -/
def Push_WorldObject : Option HostObject → LuaVal
  | none => .nil
  | some o =>
      match o.tag with
      | .typeidUnit => Push_Creature (some o)
      | .typeidPlayer => Push_Player (some o)
      | .typeidGameobject => Push_GameObject (some o)
      | .typeidCorpse => Push_Corpse (some o)
      | _ => templatePush "WorldObject" (some o)

/-- Eluna::Push(Object const*) (LuaEngine.cpp:447-471): same switch as
WorldObject with the generic Object wrapper as default. -/
def Push_Object : Option HostObject → LuaVal
  | none => .nil
  | some o =>
      match o.tag with
      | .typeidUnit => Push_Creature (some o)
      | .typeidPlayer => Push_Player (some o)
      | .typeidGameobject => Push_GameObject (some o)
      | .typeidCorpse => Push_Corpse (some o)
      | _ => templatePush "Object" (some o)

/-! ## Binding stores and Register (LuaEngine.cpp:157-181, 644-869).
BindingMap.h is not under src/; the store is modelled from the spec
(section 4.2): an ordered list of registrations per key with a monotonically
increasing bindingId, plus Insert / Clear / HasBindingsFor. -/

/-- Registration types, mirroring the Hooks::RegisterTypes values used by
Eluna::Register (Hooks.h is not under src/; the constructor set is exactly
the set of cases of the switch in LuaEngine.cpp:704-869). -/
inductive RegType
  | server | player | guild | group | vehicle | bg | packet
  | creature | creatureGossip | gameobject | gameobjectGossip
  | spell | item | itemGossip | playerGossip | mapReg | instanceReg
  | creatureUnique
deriving DecidableEq, Repr

/-- Binding keys: EventKey(event), EntryKey(event, entry) and
UniqueObjectKey(event, guid, instanceId) (declared in LuaEngine.h:110-112,
defined in the absent BindingMap.h; shapes per spec section 3).  A guid is a
raw value with 0 the empty guid (ObjectGuid::IsEmpty, cf. the "guid was 0!"
error in LuaEngine.cpp:770). -/
inductive BKey
  | event (eventId : Nat)
  | entry (eventId : Nat) (entryId : Nat)
  | unique (eventId : Nat) (guid : Nat) (instanceId : Nat)
deriving DecidableEq, Repr

/-- Modelled from the spec: one CallbackRegistration of BindingMap
(section 3): key, retained callable reference, remaining-invocation count and
the unique bindingId. -/
structure Binding where
  key : BKey
  funcRef : Int
  shots : Nat
  id : Nat
deriving DecidableEq, Repr

/-- Modelled from the spec: a BindingMap store (section 4.2) — insertion-
ordered registrations and the next monotonic bindingId. -/
structure BindingStore where
  nextId : Nat
  entries : List Binding
deriving DecidableEq, Repr

/-- BindingMap::Insert: appends a registration and returns its fresh id. -/
def BindingStore.insert (st : BindingStore) (k : BKey) (fref : Int)
    (shots : Nat) : Nat × BindingStore :=
  (st.nextId, { nextId := st.nextId + 1,
                entries := st.entries ++ [⟨k, fref, shots, st.nextId⟩] })

/-- BindingMap::Clear(key): removes every registration for the key. -/
def BindingStore.clear (st : BindingStore) (k : BKey) : BindingStore :=
  { st with entries := st.entries.filter (fun b => b.key ≠ k) }

/-- BindingMap::HasBindingsFor(key). -/
def BindingStore.hasBindingsFor (st : BindingStore) (k : BKey) : Bool :=
  st.entries.any (fun b => b.key = k)

/-- Host-side collaborators of Eluna::Register: the per-family event counts
(from the absent Hooks.h) and the template existence oracles
(eObjectMgr::Get*Template, host code).  NUM_MSG_TYPES bounds packet opcodes. -/
structure HostEnv where
  serverEventCount : Nat
  playerEventCount : Nat
  guildEventCount : Nat
  groupEventCount : Nat
  vehicleEventCount : Nat
  bgEventCount : Nat
  packetEventCount : Nat
  creatureEventCount : Nat
  gossipEventCount : Nat
  gameobjectEventCount : Nat
  spellEventCount : Nat
  itemEventCount : Nat
  instanceEventCount : Nat
  numMsgTypes : Nat
  hasCreatureTemplate : Nat → Bool
  hasGameObjectTemplate : Nat → Bool
  hasItemTemplate : Nat → Bool

/-- The binding-store collection of one Eluna state (LuaEngine.h:185) plus
the registry references released through luaL_unref (most recent first). -/
structure RegState where
  stores : RegType → BindingStore
  releasedRefs : List Int

/-- Register error messages (the printf templates of LuaEngine.cpp:744, 757,
770, 796, 827, 867; the packet-entry failure reuses the creature message in
the source). -/
inductive RegError
  | couldNotFindCreature (entry : Nat)
  | couldNotFindGameObject (entry : Nat)
  | couldNotFindItem (entry : Nat)
  | guidWasZero
  | unknownEventType (rt : RegType) (eventId : Nat) (entry : Nat) (guid : Nat)
      (instanceId : Nat)
deriving DecidableEq, Repr

/-- Outcome of Eluna::Register: either the cancel callback (a closure over the
new bindingId, LuaEngine.cpp:659-668) is pushed and 1 returned, or the
function reference was released and a lua error raised. -/
inductive RegOutcome
  | callback (bindingId : Nat)
  | fail (e : RegError)
deriving DecidableEq, Repr

def RegState.updateStore (s : RegState) (rt : RegType) (st : BindingStore) :
    RegState :=
  { s with stores := fun r => if r = rt then st else s.stores r }

/-- RegisterBasicBinding / RegisterEntryBinding / RegisterUniqueBinding
(LuaEngine.cpp:670-701): insert into the regtype's store and build the cancel
callback for the fresh bindingId. -/
def registerBinding (s : RegState) (rt : RegType) (k : BKey) (fref : Int)
    (shots : Nat) : RegOutcome × RegState :=
  let (bid, st) := (s.stores rt).insert k fref shots
  (.callback bid, s.updateStore rt st)

/-- The failure path: luaL_unref on the function reference, then luaL_error. -/
def registerFail (s : RegState) (fref : Int) (e : RegError) :
    RegOutcome × RegState :=
  (.fail e, { s with releasedRefs := fref :: s.releasedRefs })

/-- Eluna::Register (LuaEngine.cpp:704-869), the full switch.  Falling off a
case (event id at or above the family count) reaches the shared bottom
failure (unref + "Unknown event type").  A regtype value outside the enum
would reach the same bottom failure in C++; the model's domain is the enum
itself, every value of which the switch handles. -/
def Register (env : HostEnv) (rt : RegType) (entry : Nat) (guid : Nat)
    (instanceId : Nat) (eventId : Nat) (fref : Int) (shots : Nat)
    (s : RegState) : RegOutcome × RegState :=
  let unknown := registerFail s fref
    (.unknownEventType rt eventId entry guid instanceId)
  match rt with
  | .server =>
      if eventId < env.serverEventCount then
        registerBinding s .server (.event eventId) fref shots
      else unknown
  | .player =>
      if eventId < env.playerEventCount then
        registerBinding s .player (.event eventId) fref shots
      else unknown
  | .guild =>
      if eventId < env.guildEventCount then
        registerBinding s .guild (.event eventId) fref shots
      else unknown
  | .group =>
      if eventId < env.groupEventCount then
        registerBinding s .group (.event eventId) fref shots
      else unknown
  | .vehicle =>
      if eventId < env.vehicleEventCount then
        registerBinding s .vehicle (.event eventId) fref shots
      else unknown
  | .bg =>
      if eventId < env.bgEventCount then
        registerBinding s .bg (.event eventId) fref shots
      else unknown
  | .packet =>
      if eventId < env.packetEventCount then
        if env.numMsgTypes ≤ entry then
          registerFail s fref (.couldNotFindCreature entry)
        else
          registerBinding s .packet (.entry eventId entry) fref shots
      else unknown
  | .creature =>
      if eventId < env.creatureEventCount then
        if env.hasCreatureTemplate entry then
          registerBinding s .creature (.entry eventId entry) fref shots
        else
          registerFail s fref (.couldNotFindCreature entry)
      else unknown
  | .creatureUnique =>
      if eventId < env.creatureEventCount then
        if guid = 0 then
          registerFail s fref .guidWasZero
        else
          registerBinding s .creatureUnique (.unique eventId guid instanceId)
            fref shots
      else unknown
  | .creatureGossip =>
      if eventId < env.gossipEventCount then
        if env.hasCreatureTemplate entry then
          registerBinding s .creatureGossip (.entry eventId entry) fref shots
        else
          registerFail s fref (.couldNotFindCreature entry)
      else unknown
  | .gameobject =>
      if eventId < env.gameobjectEventCount then
        if env.hasGameObjectTemplate entry then
          registerBinding s .gameobject (.entry eventId entry) fref shots
        else
          registerFail s fref (.couldNotFindGameObject entry)
      else unknown
  | .gameobjectGossip =>
      if eventId < env.gossipEventCount then
        if env.hasGameObjectTemplate entry then
          registerBinding s .gameobjectGossip (.entry eventId entry) fref shots
        else
          registerFail s fref (.couldNotFindGameObject entry)
      else unknown
  | .spell =>
      if eventId < env.spellEventCount then
        registerBinding s .spell (.entry eventId entry) fref shots
      else unknown
  | .item =>
      if eventId < env.itemEventCount then
        if env.hasItemTemplate entry then
          registerBinding s .item (.entry eventId entry) fref shots
        else
          registerFail s fref (.couldNotFindItem entry)
      else unknown
  | .itemGossip =>
      if eventId < env.gossipEventCount then
        if env.hasItemTemplate entry then
          registerBinding s .itemGossip (.entry eventId entry) fref shots
        else
          registerFail s fref (.couldNotFindItem entry)
      else unknown
  | .playerGossip =>
      if eventId < env.gossipEventCount then
        registerBinding s .playerGossip (.entry eventId entry) fref shots
      else unknown
  | .mapReg =>
      if eventId < env.instanceEventCount then
        registerBinding s .mapReg (.entry eventId entry) fref shots
      else unknown
  | .instanceReg =>
      if eventId < env.instanceEventCount then
        registerBinding s .instanceReg (.entry eventId entry) fref shots
      else unknown

/-- The event-count bound the switch applies to each registration type
(LuaEngine.cpp:704-869). -/
def eventCountFor (env : HostEnv) : RegType → Nat
  | .server => env.serverEventCount
  | .player => env.playerEventCount
  | .guild => env.guildEventCount
  | .group => env.groupEventCount
  | .vehicle => env.vehicleEventCount
  | .bg => env.bgEventCount
  | .packet => env.packetEventCount
  | .creature => env.creatureEventCount
  | .creatureUnique => env.creatureEventCount
  | .creatureGossip => env.gossipEventCount
  | .gameobject => env.gameobjectEventCount
  | .gameobjectGossip => env.gossipEventCount
  | .spell => env.spellEventCount
  | .item => env.itemEventCount
  | .itemGossip => env.gossipEventCount
  | .playerGossip => env.gossipEventCount
  | .mapReg => env.instanceEventCount
  | .instanceReg => env.instanceEventCount

/-- Stated from the claim: entry validation per registration type — creature
and creature-gossip registrations need an existing creature template,
gameobject ones a gameobject template, item ones an item template, and packet
registrations an opcode below NUM_MSG_TYPES; the remaining types do not
validate the entry. -/
def entryOk (env : HostEnv) (rt : RegType) (entry : Nat) : Bool :=
  match rt with
  | .packet => entry < env.numMsgTypes
  | .creature => env.hasCreatureTemplate entry
  | .creatureGossip => env.hasCreatureTemplate entry
  | .gameobject => env.hasGameObjectTemplate entry
  | .gameobjectGossip => env.hasGameObjectTemplate entry
  | .item => env.hasItemTemplate entry
  | .itemGossip => env.hasItemTemplate entry
  | _ => true

/-- Stated from the claim: the acceptance condition of a registration — the
(registrationType, eventId) combination is known, the entry is valid for
entry-validated types, and REGTYPE_CREATURE_UNIQUE has a non-empty guid. -/
def registrationAccepted (env : HostEnv) (rt : RegType) (entry : Nat)
    (guid : Nat) (eventId : Nat) : Bool :=
  decide (eventId < eventCountFor env rt) && entryOk env rt entry &&
    (rt ≠ RegType.creatureUnique || guid ≠ 0)

/-- Association-list lookup used for the unordered_map members (first match;
the well-formedness invariant keeps keys unique). -/
def alookup {κ ν : Type} [DecidableEq κ] : List (κ × ν) → κ → Option ν
  | [], _ => none
  | p :: ps, k => if p.1 = k then some p.2 else alookup ps k

/-! ## RunScripts (LuaEngine.cpp:189-241).  The outcome of the protected
`require` call on one script is that script's own Lua code, outside this
repository, and is supplied as an oracle. -/

/-- One entry of the precompiled script cache (LuaEngine.h:114-122; only the
fields RunScripts reads). -/
structure LuaScript where
  filename : String
  filepath : String
  mapId : Int
deriving DecidableEq, Repr

/-- Observable state of one RunScripts batch: the duplicate-tracking map
`loaded` (filename to filepath, in insertion order), the scripts on which
`require` was actually executed, the error log, and the success count. -/
structure RunState where
  loaded : List (String × String)
  attempted : List String
  errorsLogged : List String
  count : Nat
deriving DecidableEq, Repr

/-- The duplicate-name error message (LuaEngine.cpp:217). -/
def dupErrorMsg (path prev : String) : String :=
  "[Eluna]: Error loading `" ++ path ++ "`. File with same name already " ++
    "loaded from `" ++ prev ++ "`, rename either file"

/-- One iteration of the RunScripts loop (LuaEngine.cpp:205-235): map filter
first, then the duplicate-name check, then the protected require call whose
failure only affects the success count. -/
def runScriptStep (boundMapId : Int) (requireOk : LuaScript → Bool)
    (s : RunState) (sc : LuaScript) : RunState :=
  if sc.mapId ≠ -1 ∧ sc.mapId ≠ boundMapId then
    s
  else if (alookup s.loaded sc.filename).isSome then
    { s with errorsLogged :=
        dupErrorMsg sc.filepath ((alookup s.loaded sc.filename).getD "")
          :: s.errorsLogged }
  else
    let s1 := { s with loaded := s.loaded ++ [(sc.filename, sc.filepath)],
                       attempted := s.attempted ++ [sc.filepath] }
    if requireOk sc then { s1 with count := s1.count + 1 } else s1

/-- Eluna::RunScripts over the ordered script list. -/
def RunScripts (boundMapId : Int) (requireOk : LuaScript → Bool)
    (scripts : List LuaScript) : RunState :=
  scripts.foldl (runScriptStep boundMapId requireOk)
    ⟨[], [], [], 0⟩

/-! ## Instance data (LuaEngine.cpp:975-1043).  The Lua registry reference
allocator (luaL_ref) hands out fresh references; released references
(luaL_unref) are recorded.  Map identity comes from the host Map class
(outside this repository): id, instance id and instanceability. -/

/-- Modelled from the spec: the identity of a host map — a non-instanceable
("continent") map is keyed by map id, an instanceable one by instance id
(spec section 4.5). -/
structure MapInfo where
  mapId : Nat
  instanceId : Nat
  instanceable : Bool
deriving DecidableEq, Repr

/-- The instance-data portion of an Eluna state (LuaEngine.h:180-183) plus
the registry-reference allocator and the released references. -/
structure InstDataState where
  continentDataRefs : List (Nat × Nat)
  instanceDataRefs : List (Nat × Nat)
  freedRefs : List Nat
  nextRef : Nat
deriving DecidableEq, Repr

/-- `unordered_map operator[]` assignment: replace the entry in place, or
append a new one. -/
def assocSet (l : List (Nat × Nat)) (k v : Nat) : List (Nat × Nat) :=
  if (alookup l k).isSome then
    l.map (fun p => if p.1 = k then (k, v) else p)
  else l ++ [(k, v)]

/-- Eluna::HasInstanceData (LuaEngine.cpp:975-981). -/
def HasInstanceData (m : MapInfo) (s : InstDataState) : Bool :=
  if ¬ m.instanceable then (alookup s.continentDataRefs m.mapId).isSome
  else (alookup s.instanceDataRefs m.instanceId).isSome

/-- Eluna::CreateInstanceData (LuaEngine.cpp:983-1014): take a fresh registry
reference for the table at the top of the stack, release any reference
already stored for the map's id, and store the new one. -/
def CreateInstanceData (m : MapInfo) (s : InstDataState) : InstDataState :=
  let ref := s.nextRef
  let s0 := { s with nextRef := s.nextRef + 1 }
  if ¬ m.instanceable then
    let freed := match alookup s0.continentDataRefs m.mapId with
      | some old => old :: s0.freedRefs
      | none => s0.freedRefs
    { s0 with continentDataRefs := assocSet s0.continentDataRefs m.mapId ref,
              freedRefs := freed }
  else
    let freed := match alookup s0.instanceDataRefs m.instanceId with
      | some old => old :: s0.freedRefs
      | none => s0.freedRefs
    { s0 with instanceDataRefs := assocSet s0.instanceDataRefs m.instanceId ref,
              freedRefs := freed }

/-- `unordered_map::erase(key)`. -/
def assocErase (l : List (Nat × Nat)) (k : Nat) : List (Nat × Nat) :=
  l.filter (fun p => p.1 ≠ k)

/-- One iteration of the FreeInstanceId loop (LuaEngine.cpp:1022-1042) for
instance event id `i`: clear the EntryKey(i, instanceId) bindings in the
REGTYPE_MAP and REGTYPE_INSTANCE stores (the source guards each Clear with
HasBindingsFor; the guarded and unguarded forms coincide), then release and
erase the instance data reference if one is still stored. -/
def freeStep (instanceId : Nat) (sd : RegState × InstDataState) (i : Nat) :
    RegState × InstDataState :=
  let (s, d) := sd
  let key := BKey.entry i instanceId
  let s := s.updateStore .mapReg ((s.stores .mapReg).clear key)
  let s := s.updateStore .instanceReg ((s.stores .instanceReg).clear key)
  let d :=
    match alookup d.instanceDataRefs instanceId with
    | some r =>
        { d with freedRefs := r :: d.freedRefs,
                 instanceDataRefs := assocErase d.instanceDataRefs instanceId }
    | none => d
  (s, d)

/-- Eluna::FreeInstanceId (LuaEngine.cpp:1020-1043): the loop runs i = 1
while i < INSTANCE_EVENT_COUNT (the count comes from the absent Hooks.h and
is a parameter here). -/
def FreeInstanceId (instanceEventCount : Nat) (instanceId : Nat)
    (s : RegState) (d : InstDataState) : RegState × InstDataState :=
  (List.range' 1 (instanceEventCount - 1)).foldl (freeStep instanceId) (s, d)

/-! ## Theorems -/

/-- C10: the two-argument CHECKVAL returns the default whenever the argument
is absent or nil, consulting no validator and raising no error in that case;
a present non-nil argument is passed to the validating single-argument
check. -/
theorem checkval_default_arg {α : Type} (check1 : LuaVal → Except String α)
    (defVal : α) :
    CHECKVAL_withDefault check1 none defVal = .ok defVal ∧
    CHECKVAL_withDefault check1 (some .nil) defVal = .ok defVal ∧
    ∀ v : LuaVal, v ≠ .nil →
      CHECKVAL_withDefault check1 (some v) defVal = check1 v := by
  refine ⟨rfl, rfl, ?_⟩
  intro v hv
  cases v <;> first | exact absurd rfl hv | rfl

/-- C10 witness: the default is returned for an absent uint8 argument, and a
present numeric argument goes through the validating check. -/
theorem checkval_default_arg_witness :
    CHECKVAL_withDefault CHECKVAL_uint8 none (CastResult.val 7) =
      Except.ok (CastResult.val 7) ∧
    CHECKVAL_withDefault CHECKVAL_uint8 (some (LuaVal.num (LuaNumber.finite 3)))
      (CastResult.val 7) = CHECKVAL_uint8 (LuaVal.num (LuaNumber.finite 3)) := by
  refine ⟨(checkval_default_arg CHECKVAL_uint8 (CastResult.val 7)).1, ?_⟩
  exact (checkval_default_arg CHECKVAL_uint8 (CastResult.val 7)).2.2 _
    (fun h => LuaVal.noConfusion h)

/-- C3 counterexample: a NaN argument is non-finite, yet CHECKVAL for uint8
raises no argument error — both IEEE comparisons against the bounds are
false, so the value falls through to the undefined narrowing cast
(LuaEngine.cpp:498-513 never tests for NaN). -/
theorem checkval_nan_not_rejected :
    CHECKVAL_uint8 (LuaVal.num LuaNumber.nan) = Except.ok CastResult.undef := by
  rfl

/-- Shared description of one integer CHECKVAL specialization: in-range finite
doubles convert by truncation; finite doubles beyond a bound, and the two
infinities, raise the argument error naming the violated bound. -/
def intCheckSpec (check : LuaVal → Except String CastResult) (lo hi : Int) :
    Prop :=
  (∀ q : ℚ, (lo : ℚ) ≤ q → q ≤ (hi : ℚ) →
    check (.num (.finite q)) = .ok (.val (ratTrunc q))) ∧
  (∀ q : ℚ, (hi : ℚ) < q →
    check (.num (.finite q)) =
      .error ("value must be less than or equal to " ++ toString hi)) ∧
  (∀ q : ℚ, q < (lo : ℚ) →
    check (.num (.finite q)) =
      .error ("value must be greater than or equal to " ++ toString lo)) ∧
  (check (.num .posInf) =
    .error ("value must be less than or equal to " ++ toString hi)) ∧
  (check (.num .negInf) =
    .error ("value must be greater than or equal to " ++ toString lo))

theorem CheckIntegerRange_num (n : LuaNumber) (lo hi : Int) :
    CheckIntegerRange (.num n) lo hi =
      if n.gtInt hi then
        .error ("value must be less than or equal to " ++ toString hi)
      else if n.ltInt lo then
        .error ("value must be greater than or equal to " ++ toString lo)
      else .ok n.truncToInt := by
  rfl

theorem CheckUnsignedRange_num (n : LuaNumber) (hi : Int) :
    CheckUnsignedRange (.num n) hi =
      if n.ltInt 0 then
        .error "value must be greater than or equal to 0"
      else if n.gtInt hi then
        .error ("value must be less than or equal to " ++ toString hi)
      else .ok n.truncToInt := by
  rfl

theorem checkIntegerRange_spec (lo hi : Int) (hlohi : lo ≤ hi) :
    intCheckSpec (fun v => CheckIntegerRange v lo hi) lo hi := by
  have hcast : (lo : ℚ) ≤ (hi : ℚ) := by exact_mod_cast hlohi
  refine ⟨?_, ?_, ?_, ?_, ?_⟩
  · intro q h1 h2
    simp [CheckIntegerRange_num, LuaNumber.gtInt, LuaNumber.ltInt,
      LuaNumber.truncToInt, not_lt.mpr h1, not_lt.mpr h2]
  · intro q h
    simp [CheckIntegerRange_num, LuaNumber.gtInt, h]
  · intro q h
    simp [CheckIntegerRange_num, LuaNumber.gtInt, LuaNumber.ltInt,
      not_lt.mpr (le_of_lt (lt_of_lt_of_le h hcast)), h]
  · simp [CheckIntegerRange_num, LuaNumber.gtInt]
  · simp [CheckIntegerRange_num, LuaNumber.gtInt, LuaNumber.ltInt]

theorem checkUnsignedRange_spec (hi : Int) (h0 : 0 ≤ hi) :
    intCheckSpec (fun v => CheckUnsignedRange v hi) 0 hi := by
  have hmsg : "value must be greater than or equal to 0" =
      "value must be greater than or equal to " ++ toString (0 : Int) := by
    decide
  refine ⟨?_, ?_, ?_, ?_, ?_⟩
  · intro q h1 h2
    simp only [Int.cast_zero] at h1
    simp [CheckUnsignedRange_num, LuaNumber.gtInt, LuaNumber.ltInt,
      LuaNumber.truncToInt, not_lt.mpr h1, not_lt.mpr h2]
  · intro q h
    have hq0 : ¬ q < 0 := not_lt.mpr (le_of_lt (lt_of_le_of_lt (by exact_mod_cast h0) h))
    simp [CheckUnsignedRange_num, LuaNumber.gtInt, LuaNumber.ltInt, hq0, h]
  · intro q h
    simp only [Int.cast_zero] at h
    simp [CheckUnsignedRange_num, LuaNumber.ltInt, h, ← hmsg]
  · have : ¬ (0:ℚ) < 0 := lt_irrefl 0
    simp [CheckUnsignedRange_num, LuaNumber.gtInt, LuaNumber.ltInt]
  · simp [CheckUnsignedRange_num, LuaNumber.ltInt, ← hmsg]

/-- C3 (amended): for every integer target type in {int8, uint8, int16,
uint16, int32, uint32}, CHECKVAL reads the argument as a double and returns
it truncated when it lies within [minT, maxT]; it raises an argument error
naming the violated bound for every infinite or finite out-of-range value.  A
NaN argument, however, passes both range comparisons un-rejected and reaches
the undefined narrowing cast instead of raising an error.  In particular
CHECKVAL for uint8 succeeds for 0 and 255 and fails with the range-specific
error for -1 and 256. -/
theorem checkval_integer_range_amended :
    intCheckSpec CHECKVAL_int8 (-128) 127 ∧
    intCheckSpec CHECKVAL_uint8 0 255 ∧
    intCheckSpec CHECKVAL_int16 (-32768) 32767 ∧
    intCheckSpec CHECKVAL_uint16 0 65535 ∧
    intCheckSpec CHECKVAL_int32 (-2147483648) 2147483647 ∧
    intCheckSpec CHECKVAL_uint32 0 4294967295 ∧
    (CHECKVAL_uint8 (.num (.finite 0)) = .ok (.val 0) ∧
     CHECKVAL_uint8 (.num (.finite 255)) = .ok (.val 255) ∧
     CHECKVAL_uint8 (.num (.finite (-1))) =
       .error "value must be greater than or equal to 0" ∧
     CHECKVAL_uint8 (.num (.finite 256)) =
       .error "value must be less than or equal to 255") ∧
    (CHECKVAL_int8 (.num .nan) = .ok .undef ∧
     CHECKVAL_uint8 (.num .nan) = .ok .undef ∧
     CHECKVAL_int16 (.num .nan) = .ok .undef ∧
     CHECKVAL_uint16 (.num .nan) = .ok .undef ∧
     CHECKVAL_int32 (.num .nan) = .ok .undef ∧
     CHECKVAL_uint32 (.num .nan) = .ok .undef) := by
  refine ⟨checkIntegerRange_spec (-128) 127 (by norm_num),
    checkUnsignedRange_spec 255 (by norm_num),
    checkIntegerRange_spec (-32768) 32767 (by norm_num),
    checkUnsignedRange_spec 65535 (by norm_num),
    checkIntegerRange_spec (-2147483648) 2147483647 (by norm_num),
    checkUnsignedRange_spec 4294967295 (by norm_num),
    ⟨rfl, rfl, rfl, rfl⟩, rfl, rfl, rfl, rfl, rfl, rfl⟩

/-- C3 witness: the in-range branch of the amended theorem evaluated at a
concrete value (uint8 check at 200). -/
theorem checkval_integer_range_amended_witness :
    CHECKVAL_uint8 (LuaVal.num (LuaNumber.finite 200)) =
      Except.ok (CastResult.val (ratTrunc 200)) := by
  exact checkval_integer_range_amended.2.1.1 200 (by norm_num) (by norm_num)

/-- The wrapper names the CHECKOBJ Unit chain recognizes, most specific
first. -/
def unitChainNames : List String := ["Player", "Creature", "Unit"]

/-- The wrapper names the CHECKOBJ WorldObject chain recognizes. -/
def worldObjectChainNames : List String :=
  ["Player", "Creature", "Unit", "GameObject", "Corpse", "WorldObject"]

/-- The wrapper names the CHECKOBJ Object chain recognizes. -/
def objectChainNames : List String :=
  worldObjectChainNames ++ ["Item", "Object"]

theorem templateCheck_userdata (t : String) (o : ElunaObj) (err : Bool) :
    templateCheck t (.userdata o) err =
      if o.typeName = t then .ok (some o)
      else if err then
        .error ("bad argument : " ++ t ++ " expected, got " ++ o.typeName)
      else .ok none := by
  rfl

theorem checkobj_unit_userdata (o : ElunaObj) (err : Bool) :
    CHECKOBJ_Unit (.userdata o) err =
      if o.typeName ∈ unitChainNames then .ok (some o)
      else if err then
        .error ("bad argument : Unit expected, got " ++ o.typeName)
      else .ok none := by
  by_cases h1 : o.typeName = "Player" <;>
  by_cases h2 : o.typeName = "Creature" <;>
  by_cases h3 : o.typeName = "Unit" <;>
  simp [CHECKOBJ_Unit, orElseCheck, templateCheck_userdata, unitChainNames,
    h1, h2, h3]

theorem checkobj_worldobject_userdata (o : ElunaObj) (err : Bool) :
    CHECKOBJ_WorldObject (.userdata o) err =
      if o.typeName ∈ worldObjectChainNames then .ok (some o)
      else if err then
        .error ("bad argument : WorldObject expected, got " ++ o.typeName)
      else .ok none := by
  by_cases hu : o.typeName ∈ unitChainNames
  · have : o.typeName ∈ worldObjectChainNames := by
      simp [unitChainNames, worldObjectChainNames] at hu ⊢
      tauto
    simp [CHECKOBJ_WorldObject, orElseCheck, checkobj_unit_userdata, hu, this]
  · by_cases h4 : o.typeName = "GameObject" <;>
    by_cases h5 : o.typeName = "Corpse" <;>
    by_cases h6 : o.typeName = "WorldObject" <;>
    simp [CHECKOBJ_WorldObject, orElseCheck, checkobj_unit_userdata,
      templateCheck_userdata, unitChainNames, worldObjectChainNames,
      h4, h5, h6] at hu ⊢ <;>
    simp [hu]

theorem checkobj_object_userdata (o : ElunaObj) (err : Bool) :
    CHECKOBJ_Object (.userdata o) err =
      if o.typeName ∈ objectChainNames then .ok (some o)
      else if err then
        .error ("bad argument : Object expected, got " ++ o.typeName)
      else .ok none := by
  by_cases hw : o.typeName ∈ worldObjectChainNames
  · have : o.typeName ∈ objectChainNames := by
      simp [worldObjectChainNames, objectChainNames] at hw ⊢
      tauto
    simp [CHECKOBJ_Object, orElseCheck, checkobj_worldobject_userdata, hw, this]
  · by_cases h7 : o.typeName = "Item" <;>
    by_cases h8 : o.typeName = "Object" <;>
    simp [CHECKOBJ_Object, orElseCheck, checkobj_worldobject_userdata,
      templateCheck_userdata, worldObjectChainNames, objectChainNames,
      h7, h8] at hw ⊢ <;>
    simp [hw]

/-- C4: every object argument check tries a fixed chain of recognized wrapper
types from most specific to most general before failing — the Unit check
recognizes Player, Creature and the generic Unit wrapper, the WorldObject
check additionally GameObject, Corpse and WorldObject, and the Object check
additionally Item and Object; a wrapper of a recognized name is accepted
unchanged, and when no wrapper in a chain matches and error reporting is
requested, a type-mismatch argument error naming the expected (most general)
type and the actual type is raised; without error reporting, null is
returned. -/
theorem checkobj_chain (o : ElunaObj) (err : Bool) :
    (o.typeName ∈ unitChainNames →
      CHECKOBJ_Unit (.userdata o) err = .ok (some o)) ∧
    (o.typeName ∉ unitChainNames →
      CHECKOBJ_Unit (.userdata o) true =
        .error ("bad argument : Unit expected, got " ++ o.typeName)) ∧
    (o.typeName ∉ unitChainNames →
      CHECKOBJ_Unit (.userdata o) false = .ok none) ∧
    (o.typeName ∈ worldObjectChainNames →
      CHECKOBJ_WorldObject (.userdata o) err = .ok (some o)) ∧
    (o.typeName ∉ worldObjectChainNames →
      CHECKOBJ_WorldObject (.userdata o) true =
        .error ("bad argument : WorldObject expected, got " ++ o.typeName)) ∧
    (o.typeName ∉ worldObjectChainNames →
      CHECKOBJ_WorldObject (.userdata o) false = .ok none) ∧
    (o.typeName ∈ objectChainNames →
      CHECKOBJ_Object (.userdata o) err = .ok (some o)) ∧
    (o.typeName ∉ objectChainNames →
      CHECKOBJ_Object (.userdata o) true =
        .error ("bad argument : Object expected, got " ++ o.typeName)) ∧
    (o.typeName ∉ objectChainNames →
      CHECKOBJ_Object (.userdata o) false = .ok none) := by
  refine ⟨?_, ?_, ?_, ?_, ?_, ?_, ?_, ?_, ?_⟩ <;> intro h <;>
    simp [checkobj_unit_userdata, checkobj_worldobject_userdata,
      checkobj_object_userdata, h]

/-- C4 witness: a Creature wrapper is accepted by the Unit chain, and a
GameObject wrapper rejected by it (with the error naming Unit and the actual
type) while the WorldObject chain accepts it. -/
theorem checkobj_chain_witness :
    CHECKOBJ_Unit (.userdata ⟨"Creature", none⟩) true =
      .ok (some ⟨"Creature", none⟩) ∧
    CHECKOBJ_Unit (.userdata ⟨"GameObject", none⟩) true =
      .error "bad argument : Unit expected, got GameObject" ∧
    CHECKOBJ_WorldObject (.userdata ⟨"GameObject", none⟩) true =
      .ok (some ⟨"GameObject", none⟩) := by
  refine ⟨(checkobj_chain ⟨"Creature", none⟩ true).1 (by decide), ?_, ?_⟩
  · have h := (checkobj_chain ⟨"GameObject", none⟩ true).2.1 (by decide)
    simpa using h
  · exact (checkobj_chain ⟨"GameObject", none⟩ true).2.2.2.1 (by decide)

/-- C5: a null host reference pushes nil; Push(Unit*) pushes the concrete
Creature or Player wrapper when the type tag is TYPEID_UNIT or TYPEID_PLAYER
and the generic Unit wrapper for any other tag; Push(WorldObject*) and
Push(Object*) analogously dispatch on Creature, Player, GameObject and Corpse
tags, defaulting to their own supertype wrapper; Pet and TempSummon
references are always pushed as Creature wrappers. -/
theorem push_type_tag_dispatch (o : HostObject) :
    Push_Unit none = LuaVal.nil ∧
    Push_WorldObject none = LuaVal.nil ∧
    Push_Object none = LuaVal.nil ∧
    Push_Pet none = LuaVal.nil ∧
    Push_TempSummon none = LuaVal.nil ∧
    Push_Pet (some o) = LuaVal.userdata ⟨"Creature", some o⟩ ∧
    Push_TempSummon (some o) = LuaVal.userdata ⟨"Creature", some o⟩ ∧
    (o.tag = .typeidUnit →
      Push_Unit (some o) = LuaVal.userdata ⟨"Creature", some o⟩ ∧
      Push_WorldObject (some o) = LuaVal.userdata ⟨"Creature", some o⟩ ∧
      Push_Object (some o) = LuaVal.userdata ⟨"Creature", some o⟩) ∧
    (o.tag = .typeidPlayer →
      Push_Unit (some o) = LuaVal.userdata ⟨"Player", some o⟩ ∧
      Push_WorldObject (some o) = LuaVal.userdata ⟨"Player", some o⟩ ∧
      Push_Object (some o) = LuaVal.userdata ⟨"Player", some o⟩) ∧
    (o.tag = .typeidGameobject →
      Push_WorldObject (some o) = LuaVal.userdata ⟨"GameObject", some o⟩ ∧
      Push_Object (some o) = LuaVal.userdata ⟨"GameObject", some o⟩) ∧
    (o.tag = .typeidCorpse →
      Push_WorldObject (some o) = LuaVal.userdata ⟨"Corpse", some o⟩ ∧
      Push_Object (some o) = LuaVal.userdata ⟨"Corpse", some o⟩) ∧
    (o.tag ≠ .typeidUnit → o.tag ≠ .typeidPlayer →
      Push_Unit (some o) = LuaVal.userdata ⟨"Unit", some o⟩) ∧
    (o.tag ≠ .typeidUnit → o.tag ≠ .typeidPlayer →
      o.tag ≠ .typeidGameobject → o.tag ≠ .typeidCorpse →
      Push_WorldObject (some o) = LuaVal.userdata ⟨"WorldObject", some o⟩ ∧
      Push_Object (some o) = LuaVal.userdata ⟨"Object", some o⟩) := by
  obtain ⟨tag⟩ := o
  cases tag <;>
    simp [Push_Unit, Push_WorldObject, Push_Object, Push_Pet, Push_TempSummon,
      Push_Creature, Push_Player, Push_GameObject, Push_Corpse, templatePush]

/-- C5 witness: the dispatch evaluated on a concrete player-tagged and a
concrete corpse-tagged host object. -/
theorem push_type_tag_dispatch_witness :
    Push_Unit (some ⟨.typeidPlayer⟩) =
      LuaVal.userdata ⟨"Player", some ⟨.typeidPlayer⟩⟩ ∧
    Push_WorldObject (some ⟨.typeidCorpse⟩) =
      LuaVal.userdata ⟨"Corpse", some ⟨.typeidCorpse⟩⟩ := by
  refine ⟨((push_type_tag_dispatch ⟨.typeidPlayer⟩).2.2.2.2.2.2.2.2.1 rfl).1, ?_⟩
  exact ((push_type_tag_dispatch ⟨.typeidCorpse⟩).2.2.2.2.2.2.2.2.2.2.1 rfl).1

theorem getD_append_cons (l : List LuaVal) (x : LuaVal) (r : List LuaVal) :
    (l ++ x :: r).getD l.length LuaVal.nil = x := by
  induction l with
  | nil => rfl
  | cons a t ih => simpa using ih

theorem drop_append_cons (l : List LuaVal) (x : LuaVal) (r : List LuaVal) :
    (l ++ x :: r).drop (l.length + 1) = r := by
  induction l with
  | nil => rfl
  | cons a t ih => simpa using ih

/-- C1: for every protected call whose invoked Lua function raises an error,
ExecuteCall returns false, the error message is logged (passed through the
StackTrace handler when the traceback configuration option is enabled),
exactly `res` nil values are left on the stack in place of the results, and
no error propagates to the caller (ExecuteCall returns normally; the error
was trapped by lua_pcall); if the invoked function completes without error,
ExecuteCall returns true and leaves its `res` results on the stack. -/
theorem executecall_protected_boundary (usetrace : Bool)
    (trace : String → String) (params res : Nat) (s : EState)
    (args : List LuaVal) (fid : Nat) (rest : List LuaVal)
    (hstack : s.stack = args ++ LuaVal.func fid :: rest)
    (hlen : args.length = params) :
    (∀ msg, ExecuteCall usetrace trace (.err msg) params res s =
      some (false,
        { s with stack := List.replicate res LuaVal.nil ++ rest,
                 errorLog := (if usetrace then trace msg else msg) :: s.errorLog,
                 gcRuns := s.gcRuns + 1,
                 pcallLevels := (s.event_level + 1) :: s.pcallLevels })) ∧
    (∀ results, ExecuteCall usetrace trace (.ok results) params res s =
      some (true,
        { s with stack := adjustResults res results ++ rest,
                 pcallLevels := (s.event_level + 1) :: s.pcallLevels }) ∧
      (adjustResults res results).length = res) := by
  have hle : params + 1 ≤ s.stack.length := by
    rw [hstack]; simp; omega
  have hget : s.stack.getD params LuaVal.nil = LuaVal.func fid := by
    rw [hstack, ← hlen]; exact getD_append_cons args _ rest
  have hdrop : s.stack.drop (params + 1) = rest := by
    rw [hstack, ← hlen]; exact drop_append_cons args _ rest
  constructor
  · intro msg
    simp only [ExecuteCall, if_pos hle, hget, hdrop, LuaVal.isFunction]
    simp
  · intro results
    refine ⟨?_, adjustResults_length res results⟩
    simp only [ExecuteCall, if_pos hle, hget, hdrop, LuaVal.isFunction]
    simp

/-- C1 witness: a concrete failing call (one argument, two expected results)
leaves two nils and the logged message, and a concrete succeeding call leaves
its results. -/
theorem executecall_protected_boundary_witness :
    ExecuteCall false id (.err "boom") 1 2
      ⟨[LuaVal.num (.finite 1), LuaVal.func 0, LuaVal.table 5], 0, 2, [], [], 0⟩ =
      some (false, ⟨[LuaVal.nil, LuaVal.nil, LuaVal.table 5], 0, 2, ["boom"], [1], 1⟩) ∧
    ExecuteCall false id (.ok [LuaVal.boolean true]) 1 1
      ⟨[LuaVal.num (.finite 1), LuaVal.func 0, LuaVal.table 5], 0, 2, [], [], 0⟩ =
      some (true, ⟨[LuaVal.boolean true, LuaVal.table 5], 0, 2, [], [1], 0⟩) := by
  constructor
  · have h := (executecall_protected_boundary false id 1 2
      ⟨[LuaVal.num (.finite 1), LuaVal.func 0, LuaVal.table 5], 0, 2, [], [], 0⟩
      [LuaVal.num (.finite 1)] 0 [LuaVal.table 5] rfl rfl).1 "boom"
    simpa using h
  · have h := ((executecall_protected_boundary false id 1 1
      ⟨[LuaVal.num (.finite 1), LuaVal.func 0, LuaVal.table 5], 0, 2, [], [], 0⟩
      [LuaVal.num (.finite 1)] 0 [LuaVal.table 5] rfl rfl).2 [LuaVal.boolean true]).1
    simpa [adjustResults] using h

/-- C2: epoch-counter discipline — ExecuteCall runs the protected call at
nesting depth event_level + 1 and restores event_level on return without ever
touching callstackid; CleanUpStack advances callstackid (via
InvalidateObjects) exactly when event_level is 0 at cleanup time, the counter
is never advanced while a nested dispatch is unwinding (event_level > 0), and
it strictly increases at each outermost-dispatch completion. -/
theorem callstackid_epoch_discipline :
    (∀ (usetrace : Bool) (trace : String → String) (outcome : PCallOutcome)
        (params res : Nat) (s : EState) (flag : Bool) (s2 : EState),
      ExecuteCall usetrace trace outcome params res s = some (flag, s2) →
        s2.event_level = s.event_level ∧ s2.callstackid = s.callstackid ∧
        s2.pcallLevels = (s.event_level + 1) :: s.pcallLevels) ∧
    (∀ (n : Nat) (s : EState), (CleanUpStack n s).callstackid =
      if s.event_level = 0 then s.callstackid + 1 else s.callstackid) ∧
    (∀ (n : Nat) (s : EState), s.event_level = 0 →
      s.callstackid < (CleanUpStack n s).callstackid) ∧
    (∀ (n : Nat) (s : EState), 0 < s.event_level →
      (CleanUpStack n s).callstackid = s.callstackid) ∧
    (∀ s : EState, (InvalidateObjects s).callstackid = s.callstackid + 1) := by
  refine ⟨?_, ?_, ?_, ?_, fun s => rfl⟩
  · intro usetrace trace outcome params res s flag s2 h
    cases outcome <;>
      simp only [ExecuteCall] at h <;>
      split_ifs at h <;>
      (simp only [Option.some.injEq, Prod.mk.injEq, reduceCtorEq] at h
       obtain ⟨h1, h2⟩ := h
       subst h2
       simp)
  · intro n s
    by_cases h : s.event_level = 0 <;>
      simp [CleanUpStack, InvalidateObjects, h]
  · intro n s h
    simp [CleanUpStack, InvalidateObjects, h]
  · intro n s h
    have : ¬ s.event_level = 0 := Nat.pos_iff_ne_zero.mp h
    simp [CleanUpStack, InvalidateObjects, this]

/-- C2 witness: the epoch counter at concrete states — a nested cleanup
(event_level 1) leaves callstackid at 2, an outermost cleanup advances it
to 3, and a concrete ExecuteCall preserves it. -/
theorem callstackid_epoch_discipline_witness :
    (CleanUpStack 0 ⟨[LuaVal.nil, LuaVal.nil], 1, 2, [], [], 0⟩).callstackid = 2 ∧
    (CleanUpStack 0 ⟨[LuaVal.nil, LuaVal.nil], 0, 2, [], [], 0⟩).callstackid = 3 ∧
    ∀ flag s2, ExecuteCall false id (.ok []) 0 0
        ⟨[LuaVal.func 3], 1, 2, [], [], 0⟩ = some (flag, s2) →
      s2.callstackid = 2 := by
  refine ⟨?_, ?_, ?_⟩
  · exact (callstackid_epoch_discipline.2.2.2.1 0
      ⟨[LuaVal.nil, LuaVal.nil], 1, 2, [], [], 0⟩ (by decide))
  · have h := callstackid_epoch_discipline.2.1 0
      ⟨[LuaVal.nil, LuaVal.nil], 0, 2, [], [], 0⟩
    simpa using h
  · intro flag s2 h
    exact (callstackid_epoch_discipline.1 false id (.ok []) 0 0
      ⟨[LuaVal.func 3], 1, 2, [], [], 0⟩ flag s2 h).2.1

theorem runScriptStep_oracle_congr (b : Int) (ok ok2 : LuaScript → Bool)
    (s s2 : RunState) (sc : LuaScript)
    (h1 : s.loaded = s2.loaded) (h2 : s.attempted = s2.attempted)
    (h3 : s.errorsLogged = s2.errorsLogged) :
    (runScriptStep b ok s sc).loaded = (runScriptStep b ok2 s2 sc).loaded ∧
    (runScriptStep b ok s sc).attempted = (runScriptStep b ok2 s2 sc).attempted ∧
    (runScriptStep b ok s sc).errorsLogged =
      (runScriptStep b ok2 s2 sc).errorsLogged := by
  simp only [runScriptStep, h1, h2, h3]
  split_ifs <;> simp [h1, h2, h3]

theorem runScripts_fold_congr (b : Int) (ok ok2 : LuaScript → Bool)
    (l : List LuaScript) (s s2 : RunState)
    (h1 : s.loaded = s2.loaded) (h2 : s.attempted = s2.attempted)
    (h3 : s.errorsLogged = s2.errorsLogged) :
    (l.foldl (runScriptStep b ok) s).loaded =
      (l.foldl (runScriptStep b ok2) s2).loaded ∧
    (l.foldl (runScriptStep b ok) s).attempted =
      (l.foldl (runScriptStep b ok2) s2).attempted ∧
    (l.foldl (runScriptStep b ok) s).errorsLogged =
      (l.foldl (runScriptStep b ok2) s2).errorsLogged := by
  induction l generalizing s s2 with
  | nil => exact ⟨h1, h2, h3⟩
  | cons a t ih =>
      have hstep := runScriptStep_oracle_congr b ok ok2 s s2 a h1 h2 h3
      exact ih _ _ hstep.1 hstep.2.1 hstep.2.2

/-- C7: during RunScripts, a script whose map tag is neither -1 nor the bound
map id is skipped entirely; a script whose logical filename duplicates one
already loaded in the batch gets the duplicate error logged and is skipped
without being executed; and a failing require does not abort the batch —
which scripts are attempted (and the duplicate bookkeeping) is entirely
independent of the per-script require outcomes, so every subsequent script is
still attempted. -/
theorem runscripts_skip_and_continue :
    (∀ (b : Int) (ok : LuaScript → Bool) (s : RunState) (sc : LuaScript),
      sc.mapId ≠ -1 → sc.mapId ≠ b → runScriptStep b ok s sc = s) ∧
    (∀ (b : Int) (ok : LuaScript → Bool) (s : RunState) (sc : LuaScript),
      (sc.mapId = -1 ∨ sc.mapId = b) →
      (alookup s.loaded sc.filename).isSome →
      runScriptStep b ok s sc =
        { s with errorsLogged :=
            dupErrorMsg sc.filepath ((alookup s.loaded sc.filename).getD "")
              :: s.errorsLogged }) ∧
    (∀ (b : Int) (ok : LuaScript → Bool) (s : RunState) (sc : LuaScript),
      (sc.mapId = -1 ∨ sc.mapId = b) →
      alookup s.loaded sc.filename = none →
      (runScriptStep b ok s sc).attempted = s.attempted ++ [sc.filepath] ∧
      (runScriptStep b ok s sc).loaded = s.loaded ++ [(sc.filename, sc.filepath)]) ∧
    (∀ (b : Int) (ok ok2 : LuaScript → Bool) (scripts : List LuaScript),
      (RunScripts b ok scripts).attempted = (RunScripts b ok2 scripts).attempted ∧
      (RunScripts b ok scripts).loaded = (RunScripts b ok2 scripts).loaded ∧
      (RunScripts b ok scripts).errorsLogged =
        (RunScripts b ok2 scripts).errorsLogged) := by
  refine ⟨?_, ?_, ?_, ?_⟩
  · intro b ok s sc hm hb
    simp [runScriptStep, hm, hb]
  · intro b ok s sc hmap hdup
    have hfilter : ¬ (sc.mapId ≠ -1 ∧ sc.mapId ≠ b) := by tauto
    simp [runScriptStep, hfilter, hdup]
  · intro b ok s sc hmap hnew
    have hfilter : ¬ (sc.mapId ≠ -1 ∧ sc.mapId ≠ b) := by tauto
    constructor <;> simp [runScriptStep, hfilter, hnew] <;> split_ifs <;> rfl
  · intro b ok ok2 scripts
    have h := runScripts_fold_congr b ok ok2 scripts ⟨[], [], [], 0⟩
      ⟨[], [], [], 0⟩ rfl rfl rfl
    exact ⟨h.2.1, h.1, h.2.2⟩

/-- C7 witness: a concrete three-script batch — a script tagged for another
map is skipped, a duplicate logical name is error-logged and not executed,
and with a require oracle failing on the first script the second distinct
script is still attempted. -/
theorem runscripts_skip_and_continue_witness :
    runScriptStep 0 (fun _ => true) ⟨[], [], [], 0⟩ ⟨"a.lua", "p/a.lua", 5⟩ =
      ⟨[], [], [], 0⟩ ∧
    (RunScripts 0 (fun _ => false)
        [⟨"a.lua", "p/a.lua", -1⟩, ⟨"a.lua", "q/a.lua", 0⟩,
         ⟨"b.lua", "p/b.lua", 0⟩]).attempted =
      (RunScripts 0 (fun _ => true)
        [⟨"a.lua", "p/a.lua", -1⟩, ⟨"a.lua", "q/a.lua", 0⟩,
         ⟨"b.lua", "p/b.lua", 0⟩]).attempted := by
  constructor
  · exact runscripts_skip_and_continue.1 0 (fun _ => true) ⟨[], [], [], 0⟩
      ⟨"a.lua", "p/a.lua", 5⟩ (by decide) (by decide)
  · exact (runscripts_skip_and_continue.2.2.2 0 (fun _ => false) (fun _ => true)
      [⟨"a.lua", "p/a.lua", -1⟩, ⟨"a.lua", "q/a.lua", 0⟩,
       ⟨"b.lua", "p/b.lua", 0⟩]).1

theorem alookup_eq_none {ν : Type} (l : List (Nat × ν)) (k : Nat) :
    alookup l k = none ↔ k ∉ l.map Prod.fst := by
  induction l with
  | nil => simp [alookup]
  | cons p ps ih =>
      by_cases h : p.1 = k
      · simp [alookup, h]
      · simp [alookup, h, ih, (Ne.symm h : k ≠ p.1)]

theorem alookup_append_single_self {ν : Type} (l : List (Nat × ν)) (k : Nat)
    (v : ν) (h : alookup l k = none) : alookup (l ++ [(k, v)]) k = some v := by
  induction l with
  | nil => simp [alookup]
  | cons p ps ih =>
      simp only [alookup] at h ⊢
      by_cases hp : p.1 = k
      · simp [hp] at h
      · simp only [List.cons_append, alookup, hp, if_false] at h ⊢
        exact ih h

theorem alookup_append_single_ne {ν : Type} (l : List (Nat × ν)) (k k2 : Nat)
    (v : ν) (h : k2 ≠ k) : alookup (l ++ [(k, v)]) k2 = alookup l k2 := by
  induction l with
  | nil => simp [alookup, (Ne.symm h : k ≠ k2)]
  | cons p ps ih =>
      by_cases hp : p.1 = k2 <;> simp [alookup, hp, ih]

theorem alookup_mapReplace_self (l : List (Nat × Nat)) (k v : Nat)
    (h : (alookup l k).isSome) :
    alookup (l.map (fun p => if p.1 = k then (k, v) else p)) k = some v := by
  induction l with
  | nil => simp [alookup] at h
  | cons p ps ih =>
      by_cases hp : p.1 = k
      · simp [alookup, hp]
      · simp only [alookup, hp, if_false] at h
        simp [alookup, hp, ih h]

theorem alookup_mapReplace_ne (l : List (Nat × Nat)) (k v k2 : Nat)
    (h : k2 ≠ k) :
    alookup (l.map (fun p => if p.1 = k then (k, v) else p)) k2 =
      alookup l k2 := by
  induction l with
  | nil => rfl
  | cons p ps ih =>
      have hkk2 : ¬ (k = k2) := fun hh => h hh.symm
      by_cases hp : p.1 = k
      · simp [alookup, hp, hkk2, ih]
      · by_cases hp2 : p.1 = k2 <;> simp [alookup, hp, hp2, h, hkk2, ih]

theorem alookup_isSome_of_eq_some {ν : Type} {l : List (Nat × ν)} {k : Nat}
    {v : ν} (h : alookup l k = some v) : (alookup l k).isSome := by
  simp [h]

theorem alookup_assocSet_self (l : List (Nat × Nat)) (k v : Nat) :
    alookup (assocSet l k v) k = some v := by
  by_cases h : (alookup l k).isSome
  · simp only [assocSet, h, if_true]
    exact alookup_mapReplace_self l k v h
  · have hnone : alookup l k = none := by
      cases hv : alookup l k
      · rfl
      · simp [hv] at h
    simp only [assocSet, hnone, Option.isSome_none, Bool.false_eq_true,
      if_false]
    exact alookup_append_single_self l k v hnone

theorem alookup_assocSet_ne (l : List (Nat × Nat)) (k v k2 : Nat)
    (h : k2 ≠ k) : alookup (assocSet l k v) k2 = alookup l k2 := by
  by_cases hs : (alookup l k).isSome
  · simp only [assocSet, hs, if_true]
    exact alookup_mapReplace_ne l k v k2 h
  · have hnone : alookup l k = none := by
      cases hv : alookup l k
      · rfl
      · simp [hv] at hs
    simp only [assocSet, hnone, Option.isSome_none, Bool.false_eq_true,
      if_false]
    exact alookup_append_single_ne l k k2 v h

theorem mapReplace_keys (l : List (Nat × Nat)) (k v : Nat) :
    (l.map (fun p => if p.1 = k then (k, v) else p)).map Prod.fst =
      l.map Prod.fst := by
  induction l with
  | nil => rfl
  | cons p ps ih =>
      by_cases hp : p.1 = k <;> simp [hp, ih]

theorem assocSet_keys (l : List (Nat × Nat)) (k v : Nat) :
    (assocSet l k v).map Prod.fst =
      if (alookup l k).isSome then l.map Prod.fst
      else l.map Prod.fst ++ [k] := by
  by_cases h : (alookup l k).isSome
  · simp only [assocSet, h, if_true]
    rw [mapReplace_keys]
  · simp [assocSet, h]

/-- Multiplicity of an id among the stored records. -/
def countKey (l : List (Nat × Nat)) (k : Nat) : Nat :=
  (l.map Prod.fst).count k

theorem countKey_assocSet_self (l : List (Nat × Nat)) (k v : Nat)
    (h : (l.map Prod.fst).Nodup) : countKey (assocSet l k v) k = 1 := by
  by_cases hs : (alookup l k).isSome
  · have hmem : k ∈ l.map Prod.fst := by
      by_contra hmem
      rw [← alookup_eq_none l k] at hmem
      simp [hmem] at hs
    simp only [countKey, assocSet_keys, hs, if_true]
    exact List.count_eq_one_of_mem h hmem
  · have hnone : alookup l k = none := by
      cases hv : alookup l k
      · rfl
      · simp [hv] at hs
    have hmem : k ∉ l.map Prod.fst := (alookup_eq_none l k).mp hnone
    simp only [countKey, assocSet_keys, hs, Bool.false_eq_true, if_false]
    simp [List.count_append, List.count_eq_zero_of_not_mem hmem]

theorem assocSet_keys_nodup (l : List (Nat × Nat)) (k v : Nat)
    (h : (l.map Prod.fst).Nodup) :
    ((assocSet l k v).map Prod.fst).Nodup := by
  by_cases hs : (alookup l k).isSome
  · simpa [assocSet_keys, hs] using h
  · have hnone : alookup l k = none := by
      cases hv : alookup l k
      · rfl
      · simp [hv] at hs
    have hmem : k ∉ l.map Prod.fst := (alookup_eq_none l k).mp hnone
    simp [assocSet_keys, hs, List.nodup_append, h, hmem]

/-- The registry reference stored for a map, keyed the way HasInstanceData
and PushInstanceData key it (map id for continents, instance id for
instances). -/
def lookupRef (m : MapInfo) (s : InstDataState) : Option Nat :=
  if ¬ m.instanceable then alookup s.continentDataRefs m.mapId
  else alookup s.instanceDataRefs m.instanceId

/-- Well-formedness of the instance-data stores: at most one record per id
(unordered_map semantics). -/
def instKeysWF (s : InstDataState) : Prop :=
  (s.continentDataRefs.map Prod.fst).Nodup ∧
  (s.instanceDataRefs.map Prod.fst).Nodup

/-- C8: each non-instanceable map id and each instance id maps to at most one
live instance-data reference — CreateInstanceData stores the fresh registry
reference under the map's id (continent or instance side), first releasing
any previously stored reference for that same id (and releasing nothing when
none was stored); other ids and the other side are untouched; the
one-record-per-id shape is preserved and the created id holds exactly one
record; and HasInstanceData is true exactly when a reference is stored for
the map's id. -/
theorem instancedata_unique_ref (m : MapInfo) (s : InstDataState) :
    (HasInstanceData m s = (lookupRef m s).isSome) ∧
    (lookupRef m (CreateInstanceData m s) = some s.nextRef) ∧
    (HasInstanceData m (CreateInstanceData m s) = true) ∧
    (∀ old, lookupRef m s = some old →
      old ∈ (CreateInstanceData m s).freedRefs) ∧
    (lookupRef m s = none →
      (CreateInstanceData m s).freedRefs = s.freedRefs) ∧
    (¬ m.instanceable →
      (CreateInstanceData m s).instanceDataRefs = s.instanceDataRefs) ∧
    (m.instanceable →
      (CreateInstanceData m s).continentDataRefs = s.continentDataRefs) ∧
    (∀ k, k ≠ m.mapId →
      alookup (CreateInstanceData m s).continentDataRefs k =
        alookup s.continentDataRefs k) ∧
    (∀ k, k ≠ m.instanceId →
      alookup (CreateInstanceData m s).instanceDataRefs k =
        alookup s.instanceDataRefs k) ∧
    (instKeysWF s → instKeysWF (CreateInstanceData m s)) ∧
    (instKeysWF s → ¬ m.instanceable →
      countKey (CreateInstanceData m s).continentDataRefs m.mapId = 1) ∧
    (instKeysWF s → m.instanceable →
      countKey (CreateInstanceData m s).instanceDataRefs m.instanceId = 1) := by
  by_cases hi : m.instanceable
  · refine ⟨by simp [HasInstanceData, lookupRef, hi], ?_, ?_, ?_, ?_,
      fun h => absurd hi h, fun _ => ?_, ?_, ?_, ?_, fun _ h => absurd hi h, ?_⟩
    · simp [lookupRef, CreateInstanceData, hi, alookup_assocSet_self]
    · simp [HasInstanceData, CreateInstanceData, hi, alookup_assocSet_self]
    · intro old hold
      simp only [lookupRef, hi, not_true, if_neg, if_false] at hold
      simp [CreateInstanceData, hi, hold]
    · intro hnone
      simp only [lookupRef, hi, not_true, if_neg, if_false] at hnone
      simp [CreateInstanceData, hi, hnone]
    · simp [CreateInstanceData, hi]
    · intro k hk
      simp [CreateInstanceData, hi]
    · intro k hk
      simp [CreateInstanceData, hi, alookup_assocSet_ne _ _ _ _ hk]
    · intro hwf
      exact ⟨by simpa [CreateInstanceData, hi] using hwf.1,
        by simpa [CreateInstanceData, hi] using
          assocSet_keys_nodup _ m.instanceId s.nextRef hwf.2⟩
    · intro hwf _
      simpa [CreateInstanceData, hi] using
        countKey_assocSet_self _ m.instanceId s.nextRef hwf.2
  · refine ⟨by simp [HasInstanceData, lookupRef, hi], ?_, ?_, ?_, ?_,
      fun _ => ?_, fun h => absurd h hi, ?_, ?_, ?_, ?_, fun _ h => absurd h hi⟩
    · simp [lookupRef, CreateInstanceData, hi, alookup_assocSet_self]
    · simp [HasInstanceData, CreateInstanceData, hi, alookup_assocSet_self]
    · intro old hold
      simp [lookupRef, hi] at hold
      simp [CreateInstanceData, hi, hold]
    · intro hnone
      simp [lookupRef, hi] at hnone
      simp [CreateInstanceData, hi, hnone]
    · simp [CreateInstanceData, hi]
    · intro k hk
      simp [CreateInstanceData, hi, alookup_assocSet_ne _ _ _ _ hk]
    · intro k hk
      simp [CreateInstanceData, hi]
    · intro hwf
      exact ⟨by simpa [CreateInstanceData, hi] using
        assocSet_keys_nodup _ m.mapId s.nextRef hwf.1,
        by simpa [CreateInstanceData, hi] using hwf.2⟩
    · intro hwf _
      simpa [CreateInstanceData, hi] using
        countKey_assocSet_self _ m.mapId s.nextRef hwf.1

/-- C8 witness: creating data for a concrete continent map (id 0) with a
stale record stored — the new reference is stored, the old one released, and
HasInstanceData holds. -/
theorem instancedata_unique_ref_witness :
    lookupRef ⟨0, 0, false⟩
        (CreateInstanceData ⟨0, 0, false⟩ ⟨[(0, 4)], [], [], 9⟩) = some 9 ∧
    (4 : Nat) ∈ (CreateInstanceData ⟨0, 0, false⟩ ⟨[(0, 4)], [], [], 9⟩).freedRefs ∧
    HasInstanceData ⟨0, 0, false⟩
        (CreateInstanceData ⟨0, 0, false⟩ ⟨[(0, 4)], [], [], 9⟩) = true := by
  refine ⟨(instancedata_unique_ref ⟨0, 0, false⟩ ⟨[(0, 4)], [], [], 9⟩).2.1, ?_, ?_⟩
  · exact (instancedata_unique_ref ⟨0, 0, false⟩ ⟨[(0, 4)], [], [], 9⟩).2.2.2.1
      4 (by decide)
  · exact (instancedata_unique_ref ⟨0, 0, false⟩ ⟨[(0, 4)], [], [], 9⟩).2.2.1

theorem clear_hasBindingsFor_self (st : BindingStore) (k : BKey) :
    (st.clear k).hasBindingsFor k = false := by
  simp [BindingStore.clear, BindingStore.hasBindingsFor, List.mem_filter]

theorem clear_hasBindingsFor_mono (st : BindingStore) (k k2 : BKey)
    (h : (st.clear k2).hasBindingsFor k = true) :
    st.hasBindingsFor k = true := by
  simp only [BindingStore.clear, BindingStore.hasBindingsFor,
    List.any_eq_true, List.mem_filter, decide_eq_true_eq] at h ⊢
  obtain ⟨b, ⟨hb, _⟩, hk⟩ := h
  exact ⟨b, hb, hk⟩

theorem freeStep_stores (iid : Nat) (s : RegState) (d : InstDataState)
    (i : Nat) (rt : RegType) :
    ((freeStep iid (s, d) i).1).stores rt =
      if rt = RegType.instanceReg then
        (s.stores .instanceReg).clear (.entry i iid)
      else if rt = RegType.mapReg then
        (s.stores .mapReg).clear (.entry i iid)
      else s.stores rt := by
  cases rt <;> simp [freeStep, RegState.updateStore]

theorem freeStep_data (iid : Nat) (s : RegState) (d : InstDataState)
    (i : Nat) :
    (freeStep iid (s, d) i).2 =
      match alookup d.instanceDataRefs iid with
      | some r => { d with freedRefs := r :: d.freedRefs,
                           instanceDataRefs :=
                             assocErase d.instanceDataRefs iid }
      | none => d := by
  rfl

theorem alookup_assocErase_self (l : List (Nat × Nat)) (k : Nat) :
    alookup (assocErase l k) k = none := by
  induction l with
  | nil => rfl
  | cons p ps ih =>
      by_cases hp : p.1 = k <;> simp [assocErase, alookup, hp, ih] <;>
        simpa [assocErase] using ih

theorem freeStep_has_mono (iid : Nat) (sd : RegState × InstDataState)
    (i : Nat) (rt : RegType) (k : BKey)
    (h : (((freeStep iid sd i).1).stores rt).hasBindingsFor k = true) :
    ((sd.1).stores rt).hasBindingsFor k = true := by
  obtain ⟨s, d⟩ := sd
  rw [freeStep_stores] at h
  by_cases h1 : rt = RegType.instanceReg
  · subst h1
    simp only [if_pos rfl] at h
    exact clear_hasBindingsFor_mono _ _ _ h
  · by_cases h2 : rt = RegType.mapReg
    · subst h2
      simp only [h1, if_false, if_pos rfl] at h
      exact clear_hasBindingsFor_mono _ _ _ h
    · simpa [h1, h2] using h

theorem freeFold_has_mono (iid : Nat) (l : List Nat)
    (sd : RegState × InstDataState) (rt : RegType) (k : BKey)
    (h : (((l.foldl (freeStep iid) sd).1).stores rt).hasBindingsFor k = true) :
    ((sd.1).stores rt).hasBindingsFor k = true := by
  induction l generalizing sd with
  | nil => exact h
  | cons a t ih => exact freeStep_has_mono iid sd a rt k (ih _ h)

theorem freeStep_clears (iid : Nat) (sd : RegState × InstDataState) (i : Nat) :
    (((freeStep iid sd i).1).stores .mapReg).hasBindingsFor
      (.entry i iid) = false ∧
    (((freeStep iid sd i).1).stores .instanceReg).hasBindingsFor
      (.entry i iid) = false := by
  obtain ⟨s, d⟩ := sd
  rw [freeStep_stores, freeStep_stores]
  exact ⟨by simpa using clear_hasBindingsFor_self (s.stores .mapReg) _,
    by simpa using clear_hasBindingsFor_self (s.stores .instanceReg) _⟩

theorem freeFold_clears (iid : Nat) (l : List Nat)
    (sd : RegState × InstDataState) (e : Nat) (he : e ∈ l) :
    (((l.foldl (freeStep iid) sd).1).stores .mapReg).hasBindingsFor
      (.entry e iid) = false ∧
    (((l.foldl (freeStep iid) sd).1).stores .instanceReg).hasBindingsFor
      (.entry e iid) = false := by
  induction l generalizing sd with
  | nil => cases he
  | cons a t ih =>
      rcases List.mem_cons.mp he with rfl | hmem
      · constructor
        · cases hres : (((t.foldl (freeStep iid) (freeStep iid sd e)).1).stores
            .mapReg).hasBindingsFor (.entry e iid)
          · simpa using hres
          · have := freeFold_has_mono iid t (freeStep iid sd e) .mapReg
              (.entry e iid) hres
            rw [(freeStep_clears iid sd e).1] at this
            cases this
        · cases hres : (((t.foldl (freeStep iid) (freeStep iid sd e)).1).stores
            .instanceReg).hasBindingsFor (.entry e iid)
          · simpa using hres
          · have := freeFold_has_mono iid t (freeStep iid sd e) .instanceReg
              (.entry e iid) hres
            rw [(freeStep_clears iid sd e).2] at this
            cases this
      · exact ih _ hmem

theorem freeStep_data_clears (iid : Nat) (sd : RegState × InstDataState)
    (i : Nat) :
    alookup (((freeStep iid sd i).2).instanceDataRefs) iid = none := by
  obtain ⟨s, d⟩ := sd
  rw [freeStep_data]
  cases h : alookup d.instanceDataRefs iid
  · simpa using h
  · simpa using alookup_assocErase_self d.instanceDataRefs iid

theorem freeStep_data_none (iid : Nat) (sd : RegState × InstDataState)
    (i : Nat) (h : alookup ((sd.2).instanceDataRefs) iid = none) :
    (freeStep iid sd i).2 = sd.2 := by
  obtain ⟨s, d⟩ := sd
  rw [freeStep_data]
  simp only at h
  rw [h]

theorem freeStep_freed_mono (iid : Nat) (sd : RegState × InstDataState)
    (i : Nat) (x : Nat) (h : x ∈ (sd.2).freedRefs) :
    x ∈ ((freeStep iid sd i).2).freedRefs := by
  obtain ⟨s, d⟩ := sd
  rw [freeStep_data]
  cases hl : alookup d.instanceDataRefs iid <;> simp at h ⊢ <;> simp [h]

theorem freeStep_freed_self (iid : Nat) (sd : RegState × InstDataState)
    (i : Nat) (r : Nat) (h : alookup ((sd.2).instanceDataRefs) iid = some r) :
    r ∈ ((freeStep iid sd i).2).freedRefs := by
  obtain ⟨s, d⟩ := sd
  rw [freeStep_data]
  simp only at h
  rw [h]
  simp

theorem freeFold_data_none_preserved (iid : Nat) (l : List Nat)
    (sd : RegState × InstDataState)
    (h : alookup ((sd.2).instanceDataRefs) iid = none) :
    alookup (((l.foldl (freeStep iid) sd).2).instanceDataRefs) iid = none := by
  induction l generalizing sd with
  | nil => exact h
  | cons a t ih =>
      apply ih
      rw [freeStep_data_none iid sd a h]
      exact h

theorem freeFold_freed_mono (iid : Nat) (l : List Nat)
    (sd : RegState × InstDataState) (x : Nat) (h : x ∈ (sd.2).freedRefs) :
    x ∈ ((l.foldl (freeStep iid) sd).2).freedRefs := by
  induction l generalizing sd with
  | nil => exact h
  | cons a t ih => exact ih _ (freeStep_freed_mono iid sd a x h)

theorem freeFold_data_clears (iid : Nat) (a : Nat) (t : List Nat)
    (sd : RegState × InstDataState) :
    alookup ((((a :: t).foldl (freeStep iid) sd).2).instanceDataRefs) iid =
      none := by
  exact freeFold_data_none_preserved iid t (freeStep iid sd a)
    (freeStep_data_clears iid sd a)

theorem freeFold_freed (iid : Nat) (a : Nat) (t : List Nat)
    (sd : RegState × InstDataState) (r : Nat)
    (h : alookup ((sd.2).instanceDataRefs) iid = some r) :
    r ∈ (((a :: t).foldl (freeStep iid) sd).2).freedRefs := by
  exact freeFold_freed_mono iid t (freeStep iid sd a) r
    (freeStep_freed_self iid sd a r h)

/-- C9: after FreeInstanceId(instanceId), the instance-data reference stored
for instanceId is released and removed — a map with that instance id has no
instance data — and for every instance event id (1 up to
INSTANCE_EVENT_COUNT, per the loop bounds; event id 0 is unused by the hook
enumeration) the REGTYPE_MAP and REGTYPE_INSTANCE binding stores contain no
binding keyed (event, instanceId).  INSTANCE_EVENT_COUNT comes from the
absent Hooks.h and is a parameter, at least 2 (the enumeration starts at 1
and is non-empty). -/
theorem freeinstanceid_clears (cnt iid : Nat) (s : RegState)
    (d : InstDataState) (hcnt : 2 ≤ cnt) :
    alookup ((FreeInstanceId cnt iid s d).2).instanceDataRefs iid = none ∧
    (∀ m : MapInfo, m.instanceable → m.instanceId = iid →
      HasInstanceData m (FreeInstanceId cnt iid s d).2 = false) ∧
    (∀ r, alookup d.instanceDataRefs iid = some r →
      r ∈ ((FreeInstanceId cnt iid s d).2).freedRefs) ∧
    (∀ e, 1 ≤ e → e < cnt →
      (((FreeInstanceId cnt iid s d).1).stores .mapReg).hasBindingsFor
        (.entry e iid) = false ∧
      (((FreeInstanceId cnt iid s d).1).stores .instanceReg).hasBindingsFor
        (.entry e iid) = false) := by
  have hne : ∃ a t, List.range' 1 (cnt - 1) = a :: t := by
    cases hr : List.range' 1 (cnt - 1) with
    | nil =>
        exfalso
        have : cnt - 1 = 0 := by
          by_contra hzero
          exact absurd hr (by simp [List.range'_eq_nil, hzero])
        omega
    | cons a t => exact ⟨a, t, rfl⟩
  obtain ⟨a, t, hr⟩ := hne
  refine ⟨?_, ?_, ?_, ?_⟩
  · rw [FreeInstanceId, hr]
    exact freeFold_data_clears iid a t (s, d)
  · intro m hmi hmid
    have hnone : alookup ((FreeInstanceId cnt iid s d).2).instanceDataRefs
        iid = none := by
      rw [FreeInstanceId, hr]
      exact freeFold_data_clears iid a t (s, d)
    simp [HasInstanceData, hmi, hmid, hnone]
  · intro r hr2
    rw [FreeInstanceId, hr]
    exact freeFold_freed iid a t (s, d) r hr2
  · intro e h1 h2
    have hmem : e ∈ List.range' 1 (cnt - 1) := by
      rw [List.mem_range'_1]
      omega
    rw [FreeInstanceId]
    exact freeFold_clears iid (List.range' 1 (cnt - 1)) (s, d) e hmem

/-- C9 witness: freeing instance id 7 with three instance events, a stored
reference 4 and one binding per store keyed (1, 7) — the reference is
released and both stores are cleared of the key. -/
theorem freeinstanceid_clears_witness :
    alookup ((FreeInstanceId 3 7
        { stores := fun _ => ⟨1, [⟨.entry 1 7, 11, 0, 0⟩]⟩, releasedRefs := [] }
        ⟨[], [(7, 4)], [], 9⟩).2).instanceDataRefs 7 = none ∧
    (4 : Nat) ∈ ((FreeInstanceId 3 7
        { stores := fun _ => ⟨1, [⟨.entry 1 7, 11, 0, 0⟩]⟩, releasedRefs := [] }
        ⟨[], [(7, 4)], [], 9⟩).2).freedRefs ∧
    (((FreeInstanceId 3 7
        { stores := fun _ => ⟨1, [⟨.entry 1 7, 11, 0, 0⟩]⟩, releasedRefs := [] }
        ⟨[], [(7, 4)], [], 9⟩).1).stores .mapReg).hasBindingsFor
      (.entry 1 7) = false := by
  refine ⟨(freeinstanceid_clears 3 7 _ _ (by norm_num)).1, ?_, ?_⟩
  · exact (freeinstanceid_clears 3 7 _ _ (by norm_num)).2.2.1 4 (by decide)
  · exact ((freeinstanceid_clears 3 7 _ _ (by norm_num)).2.2.2 1 (by norm_num)
      (by norm_num)).1

/-- The key shape each registration type inserts under (which Register*
helper the switch calls: EventKey for the basic types, UniqueObjectKey for
REGTYPE_CREATURE_UNIQUE, EntryKey for the rest; LuaEngine.cpp:704-869). -/
def keyFor (rt : RegType) (entry : Nat) (guid : Nat) (instanceId : Nat)
    (eventId : Nat) : BKey :=
  match rt with
  | .server | .player | .guild | .group | .vehicle | .bg => .event eventId
  | .creatureUnique => .unique eventId guid instanceId
  | _ => .entry eventId entry

/-- C6: Register rejects exactly the invalid requests — unknown
(registrationType, eventId) combination, a missing template entry for the
entry-validated types (packet opcode bound included), or an empty guid for
REGTYPE_CREATURE_UNIQUE — releasing the callable reference via luaL_unref and
raising a descriptive error with no binding inserted; every valid request
inserts exactly one registration into the matching binding store (under the
type's key shape, with a fresh monotonic bindingId), leaves every other store
untouched, releases nothing, and returns the cancellation callback for the
new bindingId. -/
theorem register_validation (env : HostEnv) (rt : RegType)
    (entry guid instanceId eventId : Nat) (fref : Int) (shots : Nat)
    (s : RegState) :
    (registrationAccepted env rt entry guid eventId = false →
      (∃ e, (Register env rt entry guid instanceId eventId fref shots s).1 =
        .fail e) ∧
      (∀ r, ((Register env rt entry guid instanceId eventId fref shots s).2).stores r
        = s.stores r) ∧
      ((Register env rt entry guid instanceId eventId fref shots s).2).releasedRefs
        = fref :: s.releasedRefs) ∧
    (registrationAccepted env rt entry guid eventId = true →
      ((Register env rt entry guid instanceId eventId fref shots s).1 =
        .callback (s.stores rt).nextId) ∧
      (((Register env rt entry guid instanceId eventId fref shots s).2).stores rt =
        ⟨(s.stores rt).nextId + 1,
         (s.stores rt).entries ++
           [⟨keyFor rt entry guid instanceId eventId, fref, shots,
             (s.stores rt).nextId⟩]⟩) ∧
      (∀ r, r ≠ rt →
        ((Register env rt entry guid instanceId eventId fref shots s).2).stores r
          = s.stores r) ∧
      ((Register env rt entry guid instanceId eventId fref shots s).2).releasedRefs
        = s.releasedRefs) := by
  cases rt <;>
    simp only [Register, registrationAccepted, eventCountFor, entryOk, keyFor,
      registerBinding, registerFail, RegState.updateStore,
      BindingStore.insert] <;>
    split_ifs <;>
    simp_all

/-- C6 witness: a concrete environment with one creature template (entry 30)
and two-event families — registering a creature event inserts one binding and
returns the callback for bindingId 0; registering with a missing template
(entry 31) fails with the stores untouched and the callable released. -/
theorem register_validation_witness :
    ((Register ⟨2, 2, 2, 2, 2, 2, 2, 2, 2, 2, 2, 2, 2, 2,
        fun e => e = 30, fun _ => false, fun _ => false⟩ .creature 30 0 0 1 5 0
        { stores := fun _ => ⟨0, []⟩, releasedRefs := [] }).1 =
      RegOutcome.callback 0) ∧
    (((Register ⟨2, 2, 2, 2, 2, 2, 2, 2, 2, 2, 2, 2, 2, 2,
        fun e => e = 30, fun _ => false, fun _ => false⟩ .creature 30 0 0 1 5 0
        { stores := fun _ => ⟨0, []⟩, releasedRefs := [] }).2).stores .creature =
      ⟨1, [⟨.entry 1 30, 5, 0, 0⟩]⟩) ∧
    (((Register ⟨2, 2, 2, 2, 2, 2, 2, 2, 2, 2, 2, 2, 2, 2,
        fun e => e = 30, fun _ => false, fun _ => false⟩ .creature 31 0 0 1 5 0
        { stores := fun _ => ⟨0, []⟩, releasedRefs := [] }).2).releasedRefs =
      [5]) ∧
    (((Register ⟨2, 2, 2, 2, 2, 2, 2, 2, 2, 2, 2, 2, 2, 2,
        fun e => e = 30, fun _ => false, fun _ => false⟩ .creature 31 0 0 1 5 0
        { stores := fun _ => ⟨0, []⟩, releasedRefs := [] }).2).stores .creature =
      ⟨0, []⟩) := by
  refine ⟨?_, ?_, ?_, ?_⟩
  · exact ((register_validation ⟨2, 2, 2, 2, 2, 2, 2, 2, 2, 2, 2, 2, 2, 2,
      fun e => e = 30, fun _ => false, fun _ => false⟩ .creature 30 0 0 1 5 0
      { stores := fun _ => ⟨0, []⟩, releasedRefs := [] }).2 (by simp
        [registrationAccepted, eventCountFor, entryOk])).1
  · exact ((register_validation ⟨2, 2, 2, 2, 2, 2, 2, 2, 2, 2, 2, 2, 2, 2,
      fun e => e = 30, fun _ => false, fun _ => false⟩ .creature 30 0 0 1 5 0
      { stores := fun _ => ⟨0, []⟩, releasedRefs := [] }).2 (by simp
        [registrationAccepted, eventCountFor, entryOk])).2.1
  · exact ((register_validation ⟨2, 2, 2, 2, 2, 2, 2, 2, 2, 2, 2, 2, 2, 2,
      fun e => e = 30, fun _ => false, fun _ => false⟩ .creature 31 0 0 1 5 0
      { stores := fun _ => ⟨0, []⟩, releasedRefs := [] }).1 (by simp
        [registrationAccepted, eventCountFor, entryOk])).2.2
  · exact ((register_validation ⟨2, 2, 2, 2, 2, 2, 2, 2, 2, 2, 2, 2, 2, 2,
      fun e => e = 30, fun _ => false, fun _ => false⟩ .creature 31 0 0 1 5 0
      { stores := fun _ => ⟨0, []⟩, releasedRefs := [] }).1 (by simp
        [registrationAccepted, eventCountFor, entryOk])).2.1 .creature
